import Mathlib

set_option maxRecDepth 8000

/-!
Verification of the ticket intake and disposition engine of the service-desk
automation module (`project2_service_desk.py`).

The pure decision logic of the module is embedded shallowly:

* `determine_priority` embeds `_determine_priority` (lines 191-206);
* `classify_ticket` embeds the pure part of `classify_ticket` (164-189), with
  the opaque ML category prediction passed in as `ml_category`;
* `kb_lookup` and `knowledge_base` embed the knowledge-base scan inside
  `auto_resolve_ticket` (226-275);
* `generate_ai_resolution` embeds the post-processing of
  `_generate_ai_resolution` (286-320), with the raw chat-completion content
  passed in as a parameter (`none` models the exception path);
* `auto_resolve_ticket` embeds `auto_resolve_ticket` (208-284); the Redis
  cache read is passed in as `cache : Option String` (`none` = miss, and a
  `some` value is subject to the same truthiness test as the Python bytes);
  the returned `Bool` instruments whether `_generate_ai_resolution` was
  invoked on this run;
* `assign_ticket` embeds `assign_ticket` (322-367), abstracted over the
  roster; the source's hard-coded roster is `team_skills`;
* `predict_resolution_time` embeds `predict_resolution_time` (369-417) with
  the wall-clock hour as a parameter;
* `create_ticket` embeds the `/tickets/create` handler (494-540), and
  `create_ticket_endpoint` additionally models the propagation of a failure
  of the ML classification capability (the handler has no try/except).

Python strings are modelled as Lean `String`; `str.lower()` as a map of
`Char.toLower` (all keywords in the source are ASCII); the substring test
`needle in hay` as `str_contains`.
-/

/-! ### String helpers (Python `str.lower` and `in`) -/

/-- Lower-casing of a string, character by character (Python `str.lower()`;
all keywords in the source are ASCII, where the two agree). -/
def lower_str (s : String) : String :=
  String.mk (s.data.map Char.toLower)

/-- Does `hay` start with `needle`? (helper for the substring test). -/
def leading_match : List Char → List Char → Bool
  | [], _ => true
  | _ :: _, [] => false
  | a :: as, b :: bs => a == b && leading_match as bs

/-- Does `needle` occur contiguously inside `hay`? -/
def occurs_in (needle : List Char) : List Char → Bool
  | [] => needle.isEmpty
  | c :: rest => leading_match needle (c :: rest) || occurs_in needle rest

/-- Python's `needle in hay` substring test. -/
def str_contains (hay needle : String) : Bool :=
  occurs_in needle.data hay.data

/-- Python's `any(kw in hay for kw in needles)`. -/
def contains_any (needles : List String) (hay : String) : Bool :=
  needles.any fun n => str_contains hay n

/-- Python truthiness of an optional string (`None` and `""` are falsy). -/
def is_truthy : Option String → Bool
  | none => false
  | some s => !(s == "")

/-! ### Enumerations (source lines 35-54) -/

inductive Priority where
  | LOW | MEDIUM | HIGH | CRITICAL
  deriving DecidableEq

inductive Status where
  | NEW | IN_PROGRESS | RESOLVED | CLOSED | ESCALATED
  deriving DecidableEq

inductive Category where
  | HARDWARE | SOFTWARE | NETWORK | ACCESS | EMAIL | OTHER
  deriving DecidableEq

/-! ### Priority classifier (`_determine_priority`, lines 191-206) -/

def critical_keywords : List String :=
  ["urgent", "critical", "emergency", "down", "crashed", "broken", "asap"]

def high_keywords : List String :=
  ["important", "quickly", "soon", "cannot work", "blocked"]

def medium_keywords : List String :=
  ["issue", "problem", "error", "help"]

/-- `_determine_priority` (lines 191-206): first matching tier wins. -/
def determine_priority (text : String) : Priority :=
  let text_lower := lower_str text
  if contains_any critical_keywords text_lower then Priority.CRITICAL
  else if contains_any high_keywords text_lower then Priority.HIGH
  else if contains_any medium_keywords text_lower then Priority.MEDIUM
  else Priority.LOW

/-- Pure part of `classify_ticket` (lines 164-189): the category comes from
the opaque ML model (passed in), the priority from `_determine_priority`
applied to `f"{title} {description}"`. -/
def classify_ticket (ml_category : Category) (title description : String) :
    Category × Priority :=
  (ml_category, determine_priority (title ++ " " ++ description))

/-! ### Knowledge base (inside `auto_resolve_ticket`, lines 226-275) -/

structure KBEntry where
  issue_type : String
  keywords : List String
  resolution : String
  deriving DecidableEq

/-- Resolution text of the PASSWORD_RESET entry (lines 229-237; the
indentation whitespace of the Python triple-quoted literal is elided, which
no claim depends on). -/
def password_reset_resolution : String :=
  "Your password has been reset. Please follow these steps:\n1. Check your email for the password reset link\n2. Click the link and create a new password\n3. Use at least 8 characters with a mix of letters, numbers, and symbols\n4. Try logging in with your new password\n\nIf you don't receive the email within 5 minutes, check your spam folder."

/-- Resolution text of the WIFI_CONNECTION entry (lines 241-251). -/
def wifi_connection_resolution : String :=
  "To resolve WiFi connection issues:\n1. Restart your device\n2. Forget the network and reconnect\n3. Ensure you're using the correct password\n4. Check if other devices can connect\n5. Move closer to the access point\n\nNetwork: CompanyWiFi\nPassword: [Check with IT if needed]"

/-- Resolution text of the SOFTWARE_CRASH entry (lines 255-264). -/
def software_crash_resolution : String :=
  "To resolve application crashes:\n1. Close the application completely\n2. Restart your computer\n3. Check for software updates\n4. Clear application cache if possible\n5. Reinstall if the issue persists\n\nIf this doesn't resolve the issue, we'll need to investigate further."

/-- The PASSWORD_RESET entry (lines 227-238). -/
def kb_password_reset : KBEntry :=
  { issue_type := "PASSWORD_RESET",
    keywords := ["password", "reset", "forgot", "locked"],
    resolution := password_reset_resolution }

/-- The WIFI_CONNECTION entry (lines 239-252). -/
def kb_wifi_connection : KBEntry :=
  { issue_type := "WIFI_CONNECTION",
    keywords := ["wifi", "wireless", "connect", "network"],
    resolution := wifi_connection_resolution }

/-- The SOFTWARE_CRASH entry (lines 253-265). -/
def kb_software_crash : KBEntry :=
  { issue_type := "SOFTWARE_CRASH",
    keywords := ["crash", "error", "stopped working", "not responding"],
    resolution := software_crash_resolution }

/-- The `knowledge_base` dict (lines 226-266); a Python dict iterates in
insertion order, so it is a list here, in source order. -/
def knowledge_base : List KBEntry :=
  [kb_password_reset, kb_wifi_connection, kb_software_crash]

/-- Does a knowledge-base entry match the (already lower-cased) ticket text?
(`any(keyword in ticket_text for keyword in kb_entry["keywords"])`, line 271). -/
def kb_matches (ticket_text : String) (e : KBEntry) : Bool :=
  e.keywords.any fun keyword => str_contains ticket_text keyword

/-- The knowledge-base loop of `auto_resolve_ticket` (lines 270-275): the
resolution of the first entry, in insertion order, with any keyword contained
in the lower-cased ticket text. -/
def kb_lookup (ticket_text : String) : Option String :=
  (knowledge_base.find? fun e => kb_matches ticket_text e).map KBEntry.resolution

/-! ### AI resolution fallback (`_generate_ai_resolution`, lines 286-320) -/

/-- The escalation phrases of line 313. -/
def decline_phrases : List String :=
  ["contact it", "admin required", "none"]

/-- Post-processing of `_generate_ai_resolution` (lines 299-320):
`ai_content` is the raw chat-completion message content, `none` standing for
the exception path (line 318-320, which returns `None`). A returned text
containing any decline phrase in lower case is discarded (lines 313-314). -/
def generate_ai_resolution (ai_content : Option String) : Option String :=
  match ai_content with
  | none => none
  | some resolution =>
      if contains_any decline_phrases (lower_str resolution) then none
      else some resolution

/-! ### Auto-resolution (`auto_resolve_ticket`, lines 208-284) -/

/-- `auto_resolve_ticket` (lines 208-284). `cache` is the Redis `get` result
(lines 219-223; `none` = miss, and a present value is subject to the same
truthiness test as the Python bytes object); `ai_content` is the raw AI
completion fed to `_generate_ai_resolution`. The second component of the
result records whether `_generate_ai_resolution` was invoked (line 279),
instrumenting the control flow; the first component is the Python return
value. Cache write-backs (`setex`) have no bearing on the returned value. -/
def auto_resolve_ticket (cache : Option String) (ai_content : Option String)
    (priority : Priority) (title description : String) :
    Option String × Bool :=
  if is_truthy cache then (cache, false)
  else
    let ticket_text := lower_str (title ++ " " ++ description)
    match kb_lookup ticket_text with
    | some resolution => (some resolution, false)
    | none =>
        if priority = Priority.LOW ∨ priority = Priority.MEDIUM then
          let resolution := generate_ai_resolution ai_content
          if is_truthy resolution then (resolution, true) else (none, true)
        else (none, false)

/-! ### Assignment balancer (`assign_ticket`, lines 322-367) -/

structure Handler where
  email : String
  categories : List Category
  max_tickets : Nat
  current_load : Nat
  deriving DecidableEq

/-- The hard-coded `team_skills` dict (lines 333-349), in insertion order. -/
def team_skills : List Handler :=
  [ { email := "john.doe@company.com",
      categories := [Category.HARDWARE, Category.NETWORK],
      max_tickets := 10, current_load := 5 },
    { email := "jane.smith@company.com",
      categories := [Category.SOFTWARE, Category.EMAIL],
      max_tickets := 12, current_load := 3 },
    { email := "bob.wilson@company.com",
      categories := [Category.ACCESS, Category.NETWORK],
      max_tickets := 8, current_load := 7 } ]

/-- The workload fraction `current_load / max_tickets` of line 358, as an
exact rational. `mkRat a b` equals `(a : ℚ) / (b : ℚ)` whenever `b ≠ 0`
(`Rat.mkRat_eq_div`), and every handler this is computed for has
`current_load < max_tickets`, hence `max_tickets ≠ 0`; exact rational
comparison agrees with the Python float comparison on the small integer
loads involved. -/
def load_frac (h : Handler) : ℚ :=
  mkRat h.current_load h.max_tickets

/-- The candidate list of lines 355-359: handlers skilled in the category and
strictly under capacity, paired with their workload fraction. -/
def suitable_assignees (team : List Handler) (category : Category) :
    List (String × ℚ) :=
  (team.filter fun h =>
      h.categories.contains category && decide (h.current_load < h.max_tickets)).map
    fun h => (h.email, load_frac h)

/-- `assign_ticket` (lines 351-367), abstracted over the roster. The source
stably sorts the candidates by workload fraction and returns the head
(lines 366-367), i.e. the earliest candidate of minimal fraction, which is
exactly `List.argmin` (it keeps the earlier element on ties). The fallback
(lines 361-363) is Python `min(..., key=current_load)`, which likewise
returns the earliest minimum, i.e. `List.argmin` on the load. Returns
`none` only on an empty roster (unreachable in the source, whose roster is
the non-empty `team_skills`). -/
def assign_ticket (team : List Handler) (category : Category) : Option String :=
  match (suitable_assignees team category).argmin Prod.snd with
  | some (email, _) => some email
  | none => (team.argmin Handler.current_load).map Handler.email

/-! ### Resolution time estimator (`predict_resolution_time`, lines 369-417) -/

/-- The `base_times` table (lines 380-405) with the `.get(key, 180)` default
(line 408): only `OTHER` pairs are absent from the table. -/
def base_times (category : Category) (priority : Priority) : Nat :=
  match category, priority with
  | Category.HARDWARE, Priority.CRITICAL => 120
  | Category.HARDWARE, Priority.HIGH => 180
  | Category.HARDWARE, Priority.MEDIUM => 240
  | Category.HARDWARE, Priority.LOW => 480
  | Category.SOFTWARE, Priority.CRITICAL => 60
  | Category.SOFTWARE, Priority.HIGH => 120
  | Category.SOFTWARE, Priority.MEDIUM => 180
  | Category.SOFTWARE, Priority.LOW => 360
  | Category.NETWORK, Priority.CRITICAL => 90
  | Category.NETWORK, Priority.HIGH => 150
  | Category.NETWORK, Priority.MEDIUM => 240
  | Category.NETWORK, Priority.LOW => 480
  | Category.ACCESS, Priority.CRITICAL => 30
  | Category.ACCESS, Priority.HIGH => 45
  | Category.ACCESS, Priority.MEDIUM => 60
  | Category.ACCESS, Priority.LOW => 120
  | Category.EMAIL, Priority.CRITICAL => 45
  | Category.EMAIL, Priority.HIGH => 90
  | Category.EMAIL, Priority.MEDIUM => 120
  | Category.EMAIL, Priority.LOW => 240
  | Category.OTHER, _ => 180

/-- `predict_resolution_time` (lines 369-417) with `datetime.now().hour`
passed in. The source computes `int(base_time * 1.5)` when
`9 <= current_hour <= 17` (note: inclusive on both ends, line 412) and
`int(base_time * 0.8)` otherwise. Every table value and the 180 default is
a multiple of 5, so both float products are exact integers (or an exact
half-integer for `45 * 1.5`) and `int` truncation of the positive result
coincides with the natural-number divisions below. -/
def predict_resolution_time (category : Category) (priority : Priority)
    (current_hour : Nat) : Nat :=
  let base_time := base_times category priority
  if 9 ≤ current_hour ∧ current_hour ≤ 17 then (base_time * 3) / 2
  else (base_time * 4) / 5

/-! ### Ticket intake pipeline (`create_ticket`, lines 494-540) -/

/-- The intake outcome, i.e. the fields of `TicketResponse` (lines 78-86)
that the pipeline decides, plus the `auto_resolved` flag it sets on the
ticket dict (line 521). The random `id` and the echoed `title` carry no
logic and are omitted. -/
structure TicketOut where
  category : Category
  priority : Priority
  status : Status
  assignee : Option String
  resolution : Option String
  auto_resolved : Bool
  estimated_resolution_time : Nat

/-- Lines 514-517: the resolution attempt of the handler. `resolution` starts
as `None` and `auto_resolve_ticket` runs only when the classified priority is
LOW or MEDIUM. The `Bool` component again records whether the AI fallback
ran. -/
def intake_resolution (cache ai_content : Option String) (priority : Priority)
    (title description : String) : Option String × Bool :=
  if priority = Priority.LOW ∨ priority = Priority.MEDIUM then
    auto_resolve_ticket cache ai_content priority title description
  else (none, false)

/-- The `/tickets/create` handler body (lines 494-540). External effects are
passed in: `ml_category` (the ML category prediction), `cache` (the Redis
read inside `auto_resolve_ticket`), `ai_content` (the raw AI completion),
`hour` (the wall-clock hour for the estimator). The `Bool` component records
whether the AI fallback `_generate_ai_resolution` ran. Lines 514-517 gate
the whole `auto_resolve_ticket` call on priority LOW/MEDIUM (see
`intake_resolution`); `if resolution:` (line 518) and `if not resolution:`
(line 524) are the Python truthiness tests on the same value. -/
def create_ticket (ml_category : Category) (cache ai_content : Option String)
    (title description : String) (hour : Nat) : TicketOut × Bool :=
  let classification := classify_ticket ml_category title description
  let category := classification.1
  let priority := classification.2
  let res_ai := intake_resolution cache ai_content priority title description
  let resolution := res_ai.1
  let ai_called := res_ai.2
  if is_truthy resolution then
    ({ category := category, priority := priority, status := Status.RESOLVED,
       assignee := none, resolution := resolution, auto_resolved := true,
       estimated_resolution_time := predict_resolution_time category priority hour },
     ai_called)
  else
    ({ category := category, priority := priority, status := Status.IN_PROGRESS,
       assignee := assign_ticket team_skills category, resolution := none,
       auto_resolved := false,
       estimated_resolution_time := predict_resolution_time category priority hour },
     ai_called)

/-- Failure of the ML classification capability. -/
inductive ClassErr where
  | ClassificationUnavailable
  deriving DecidableEq

/-- `create_ticket` including the uncaught failure mode of line 500: the
handler calls `automation.classify_ticket` with no `try`/`except`, so a
failure of the classification capability propagates to the caller and no
ticket is produced. -/
def create_ticket_endpoint (ml_result : Except ClassErr Category)
    (cache ai_content : Option String) (title description : String)
    (hour : Nat) : Except ClassErr (TicketOut × Bool) :=
  match ml_result with
  | Except.error e => Except.error e
  | Except.ok ml_category =>
      Except.ok (create_ticket ml_category cache ai_content title description hour)

/-! ### Spec-side selection functions and counterexample fixtures -/

/-- Spec reading of the balancer selection: the first candidate, in roster
order, whose workload fraction is less than or equal to every candidate's
(i.e. lowest fraction, ties resolved to the earliest candidate). -/
def first_lowest_frac (cands : List (String × ℚ)) : Option String :=
  (cands.find? fun p => cands.all fun q => decide (p.2 ≤ q.2)).map Prod.fst

/-- Spec reading of the balancer fallback: the first handler, in roster
order, whose current load is less than or equal to every handler's. -/
def first_least_loaded (team : List Handler) : Option String :=
  (team.find? fun h => team.all fun g => decide (h.current_load ≤ g.current_load)).map
    Handler.email

/-- In a `take` prefix, the first index of any member lies before the cut. -/
theorem indexOf_lt_of_mem_take {α : Type} [DecidableEq α] {a : α} :
    ∀ (l : List α) (n : Nat), a ∈ l.take n → l.indexOf a < n
  | [], n, h => by simp at h
  | _ :: _, 0, h => by simp at h
  | x :: t, n + 1, h => by
      rw [List.take_succ_cons] at h
      rcases List.mem_cons.1 h with rfl | h2
      · simp [List.indexOf_cons_self]
      · by_cases hax : x = a
        · subst hax
          simp [List.indexOf_cons_self]
        · rw [List.indexOf_cons_ne _ (by exact hax)]
          exact Nat.succ_lt_succ (indexOf_lt_of_mem_take t n h2)

/-- `List.argmin` is the first element of the list whose key is less than or
equal to every element's key. This identifies the implementation-side
selection (stable sort by key, then head; Python `min`) with the spec-side
"earliest minimum" reading. -/
theorem argmin_eq_find_min {α β : Type} [LinearOrder β] [DecidableEq α]
    (f : α → β) (l : List α) :
    l.argmin f = l.find? fun y => l.all fun z => decide (f y ≤ f z) := by
  cases h : l.argmin f with
  | none =>
      rw [List.argmin_eq_none] at h
      subst h
      rfl
  | some m =>
      rw [List.argmin_eq_some_iff] at h
      obtain ⟨hmem, hmin, hidx⟩ := h
      rw [eq_comm, List.find?_eq_some]
      refine ⟨?_, l.take (l.indexOf m), l.drop (l.indexOf m + 1), ?_, ?_⟩
      · simp only [List.all_eq_true, decide_eq_true_eq]
        exact hmin
      · have hlt : l.indexOf m < l.length := List.indexOf_lt_length.2 hmem
        conv_lhs => rw [← List.take_append_drop (l.indexOf m) l]
        rw [List.drop_eq_getElem_cons hlt]
        rw [List.getElem_indexOf hlt]
      · intro a ha
        simp only [Bool.not_eq_true', List.all_eq_false, decide_eq_true_eq]
        refine ⟨m, hmem, fun hle => ?_⟩
        have h1 : l.indexOf m ≤ l.indexOf a := hidx a (List.take_subset _ _ ha) hle
        have h2 : l.indexOf a < l.indexOf m := indexOf_lt_of_mem_take l _ ha
        omega

/-- The base-times table as the spec describes it: a fixed
`(category, priority) → base-minutes` association with a 180-minute default
for absent pairs. Used to compare `predict_resolution_time` against the
spec's reading of the estimator. -/
def base_times_table : List ((Category × Priority) × Nat) :=
  [ ((Category.HARDWARE, Priority.CRITICAL), 120),
    ((Category.HARDWARE, Priority.HIGH), 180),
    ((Category.HARDWARE, Priority.MEDIUM), 240),
    ((Category.HARDWARE, Priority.LOW), 480),
    ((Category.SOFTWARE, Priority.CRITICAL), 60),
    ((Category.SOFTWARE, Priority.HIGH), 120),
    ((Category.SOFTWARE, Priority.MEDIUM), 180),
    ((Category.SOFTWARE, Priority.LOW), 360),
    ((Category.NETWORK, Priority.CRITICAL), 90),
    ((Category.NETWORK, Priority.HIGH), 150),
    ((Category.NETWORK, Priority.MEDIUM), 240),
    ((Category.NETWORK, Priority.LOW), 480),
    ((Category.ACCESS, Priority.CRITICAL), 30),
    ((Category.ACCESS, Priority.HIGH), 45),
    ((Category.ACCESS, Priority.MEDIUM), 60),
    ((Category.ACCESS, Priority.LOW), 120),
    ((Category.EMAIL, Priority.CRITICAL), 45),
    ((Category.EMAIL, Priority.HIGH), 90),
    ((Category.EMAIL, Priority.MEDIUM), 120),
    ((Category.EMAIL, Priority.LOW), 240) ]

/-- Table lookup with the 180-minute default (`base_times.get(key, 180)`). -/
def table_lookup (category : Category) (priority : Priority) : Nat :=
  ((base_times_table.find? fun e => decide (e.1 = (category, priority))).map
    Prod.snd).getD 180

/-- The estimator exactly as claim C7 words it: multiplier 1.5 for local hour
in the half-open interval `[9,17)` and 0.8 otherwise (so hour 17 gets 0.8),
result truncated to an integer. -/
def estimate_claimed (category : Category) (priority : Priority)
    (current_hour : Nat) : Nat :=
  let base_time := table_lookup category priority
  if 9 ≤ current_hour ∧ current_hour < 17 then (base_time * 3) / 2
  else (base_time * 4) / 5

/-- The estimator with the amended business-hours window: the closed interval
`[9,17]`, matching the source's `9 <= current_hour <= 17`. -/
def estimate_amended (category : Category) (priority : Priority)
    (current_hour : Nat) : Nat :=
  let base_time := table_lookup category priority
  if 9 ≤ current_hour ∧ current_hour ≤ 17 then (base_time * 3) / 2
  else (base_time * 4) / 5

/-- A roster exhibiting a workload-fraction tie where roster order and
identifier order disagree: both handlers sit at 5/10, and the roster lists
`zeta` before `alpha`. -/
def tie_roster : List Handler :=
  [ { email := "zeta@company.com", categories := [Category.HARDWARE],
      max_tickets := 10, current_load := 5 },
    { email := "alpha@company.com", categories := [Category.HARDWARE],
      max_tickets := 10, current_load := 5 } ]

/-- The roster of claim C5's example: handler A at load 5/10 and handler B at
load 3/12, both skilled in the requested category. -/
def example_roster : List Handler :=
  [ { email := "handler.a@company.com", categories := [Category.NETWORK],
      max_tickets := 10, current_load := 5 },
    { email := "handler.b@company.com", categories := [Category.NETWORK],
      max_tickets := 12, current_load := 3 } ]

/-! ### Helper lemmas -/

/-- Truthiness of an optional string means: present and non-empty. -/
theorem is_truthy_iff (r : Option String) :
    is_truthy r = true ↔ ∃ s, r = some s ∧ s ≠ "" := by
  cases r with
  | none => simp [is_truthy]
  | some s => simp [is_truthy]

/-- On the source's hard-coded roster the balancer always yields a handler. -/
theorem assign_team_skills_isSome (category : Category) :
    (assign_ticket team_skills category).isSome = true := by
  cases category <;> decide

/-! ### Claim theorems -/

/-- C1: `_determine_priority` evaluates the CRITICAL, HIGH and MEDIUM keyword
sets in that fixed precedence order over the lower-cased text, returns the
first tier with any keyword match and LOW when no tier matches; in
particular any text with a CRITICAL keyword match is classified CRITICAL no
matter which other tiers also match. -/
theorem determine_priority_tier_precedence (text : String) :
    (contains_any critical_keywords (lower_str text) = true →
      determine_priority text = Priority.CRITICAL)
    ∧ (contains_any critical_keywords (lower_str text) = false →
       contains_any high_keywords (lower_str text) = true →
      determine_priority text = Priority.HIGH)
    ∧ (contains_any critical_keywords (lower_str text) = false →
       contains_any high_keywords (lower_str text) = false →
       contains_any medium_keywords (lower_str text) = true →
      determine_priority text = Priority.MEDIUM)
    ∧ (contains_any critical_keywords (lower_str text) = false →
       contains_any high_keywords (lower_str text) = false →
       contains_any medium_keywords (lower_str text) = false →
      determine_priority text = Priority.LOW) := by
  unfold determine_priority
  refine ⟨fun h1 => ?_, fun h1 h2 => ?_, fun h1 h2 h3 => ?_, fun h1 h2 h3 => ?_⟩ <;>
    simp [h1]
  · simp [h2]
  · simp [h2, h3]
  · simp [h2, h3]

/-- C1 witness: "Urgent: help with an error" matches the CRITICAL tier
(`urgent`) and the MEDIUM tier (`help`, `error`) and is classified
CRITICAL. -/
theorem determine_priority_tier_precedence_witness :
    contains_any critical_keywords (lower_str "Urgent: help with an error") = true
    ∧ contains_any medium_keywords (lower_str "Urgent: help with an error") = true
    ∧ determine_priority "Urgent: help with an error" = Priority.CRITICAL :=
  ⟨by decide, by decide,
    (determine_priority_tier_precedence "Urgent: help with an error").1 (by decide)⟩

/-- C10: `_generate_ai_resolution` discards any AI-returned resolution whose
lower-cased form contains one of the substrings "contact it",
"admin required" or "none" anywhere. -/
theorem generate_ai_resolution_declines (content : String)
    (h : contains_any decline_phrases (lower_str content) = true) :
    generate_ai_resolution (some content) = none := by
  unfold generate_ai_resolution
  simp [h]

/-- C10 witness: a usable-looking resolution containing "none" only inside
the word "nonessential" is still treated as a decline. -/
theorem generate_ai_resolution_declines_witness :
    str_contains (lower_str "Disable the nonessential startup apps") "none" = true
    ∧ contains_any decline_phrases
        (lower_str "Disable the nonessential startup apps") = true
    ∧ generate_ai_resolution (some "Disable the nonessential startup apps") = none :=
  ⟨by decide, by decide,
    generate_ai_resolution_declines "Disable the nonessential startup apps" (by decide)⟩

/-- C7 counterexample: at hour 17 the source applies the 1.5 multiplier
(`9 <= current_hour <= 17` is inclusive), not the 0.8 multiplier the claim's
half-open interval `[9,17)` prescribes: for (HARDWARE, CRITICAL) the code
yields 180 while the claim predicts 96. -/
theorem predict_resolution_time_hour17_cex :
    predict_resolution_time Category.HARDWARE Priority.CRITICAL 17 = 180
    ∧ estimate_claimed Category.HARDWARE Priority.CRITICAL 17 = 96
    ∧ predict_resolution_time Category.HARDWARE Priority.CRITICAL 17 ≠
        estimate_claimed Category.HARDWARE Priority.CRITICAL 17 := by
  decide

/-- C7 amended: the estimate equals the fixed base-minutes table entry for
(category, priority) — 180 when the pair is absent — multiplied by 1.5 when
the local hour is in the closed interval [9,17] (so hour 17 also gets the
1.5 multiplier) and by 0.8 otherwise, truncated to an integer. -/
theorem predict_resolution_time_eq_amended (category : Category)
    (priority : Priority) (current_hour : Nat) :
    predict_resolution_time category priority current_hour =
      estimate_amended category priority current_hour := by
  cases category <;> cases priority <;> rfl

/-- C8 counterexample: when the classification capability fails, intake does
not continue with category OTHER — the error propagates and no ticket is
produced. -/
theorem create_ticket_classification_failure_cex :
    create_ticket_endpoint (Except.error ClassErr.ClassificationUnavailable)
        none none "Printer broken" "the printer does not print" 10
      = Except.error ClassErr.ClassificationUnavailable
    ∧ (create_ticket_endpoint (Except.error ClassErr.ClassificationUnavailable)
        none none "Printer broken" "the printer does not print" 10).isOk = false :=
  ⟨rfl, rfl⟩

/-- C8 amended: the handler installs no fallback for classification failure:
`create_ticket` calls the classifier without try/except, so a failing
classification aborts intake, propagating the error to the caller; the OTHER
default is never applied. -/
theorem create_ticket_classification_failure_propagates (e : ClassErr)
    (cache ai_content : Option String) (title description : String)
    (hour : Nat) :
    create_ticket_endpoint (Except.error e) cache ai_content title description
        hour = Except.error e :=
  rfl

/-- C9: the knowledge-base resolver scans PASSWORD_RESET, WIFI_CONNECTION,
SOFTWARE_CRASH in that fixed order against the lower-cased ticket text and
returns the resolution of the first entry with any keyword substring match,
`none` when no entry matches. -/
theorem kb_lookup_entry_order (text : String) :
    (contains_any ["password", "reset", "forgot", "locked"]
        (lower_str text) = true →
      kb_lookup (lower_str text) = some password_reset_resolution)
    ∧ (contains_any ["password", "reset", "forgot", "locked"]
          (lower_str text) = false →
       contains_any ["wifi", "wireless", "connect", "network"]
          (lower_str text) = true →
      kb_lookup (lower_str text) = some wifi_connection_resolution)
    ∧ (contains_any ["password", "reset", "forgot", "locked"]
          (lower_str text) = false →
       contains_any ["wifi", "wireless", "connect", "network"]
          (lower_str text) = false →
       contains_any ["crash", "error", "stopped working", "not responding"]
          (lower_str text) = true →
      kb_lookup (lower_str text) = some software_crash_resolution)
    ∧ (contains_any ["password", "reset", "forgot", "locked"]
          (lower_str text) = false →
       contains_any ["wifi", "wireless", "connect", "network"]
          (lower_str text) = false →
       contains_any ["crash", "error", "stopped working", "not responding"]
          (lower_str text) = false →
      kb_lookup (lower_str text) = none) := by
  refine ⟨fun h1 => ?_, fun h1 h2 => ?_, fun h1 h2 h3 => ?_, fun h1 h2 h3 => ?_⟩
  · have hb1 : kb_matches (lower_str text) kb_password_reset = true := h1
    simp only [kb_lookup, knowledge_base, List.find?, hb1, Option.map_some']
    rfl
  · have hb1 : kb_matches (lower_str text) kb_password_reset = false := h1
    have hb2 : kb_matches (lower_str text) kb_wifi_connection = true := h2
    simp only [kb_lookup, knowledge_base, List.find?, hb1, hb2, Option.map_some']
    rfl
  · have hb1 : kb_matches (lower_str text) kb_password_reset = false := h1
    have hb2 : kb_matches (lower_str text) kb_wifi_connection = false := h2
    have hb3 : kb_matches (lower_str text) kb_software_crash = true := h3
    simp only [kb_lookup, knowledge_base, List.find?, hb1, hb2, hb3, Option.map_some']
    rfl
  · have hb1 : kb_matches (lower_str text) kb_password_reset = false := h1
    have hb2 : kb_matches (lower_str text) kb_wifi_connection = false := h2
    have hb3 : kb_matches (lower_str text) kb_software_crash = false := h3
    simp only [kb_lookup, knowledge_base, List.find?, hb1, hb2, hb3, Option.map_none']

/-- C9 witness: a text containing both "crash" and "password" resolves to the
PASSWORD_RESET resolution, not SOFTWARE_CRASH, and the match is
case-insensitive. -/
theorem kb_lookup_entry_order_witness :
    contains_any ["crash", "error", "stopped working", "not responding"]
        (lower_str "Excel CRASH after PASSWORD change") = true
    ∧ contains_any ["password", "reset", "forgot", "locked"]
        (lower_str "Excel CRASH after PASSWORD change") = true
    ∧ kb_lookup (lower_str "Excel CRASH after PASSWORD change") =
        some password_reset_resolution :=
  ⟨by decide, by decide,
    (kb_lookup_entry_order "Excel CRASH after PASSWORD change").1 (by decide)⟩

/-- C2 counterexample: a ticket classified HIGH whose text matches the
PASSWORD_RESET knowledge-base entry is NOT auto-resolved by intake — lines
514-517 gate the whole `auto_resolve_ticket` call (cache and knowledge base
included) on priority LOW/MEDIUM, so the ticket is assigned to a handler
instead. -/
theorem create_ticket_high_kb_cex :
    (classify_ticket Category.ACCESS "Account blocked"
        "password reset needed please").2 = Priority.HIGH
    ∧ (kb_lookup (lower_str ("Account blocked" ++ " " ++
        "password reset needed please"))).isSome = true
    ∧ (create_ticket Category.ACCESS none none "Account blocked"
        "password reset needed please" 10).1.resolution = none
    ∧ (create_ticket Category.ACCESS none none "Account blocked"
        "password reset needed please" 10).1.status = Status.IN_PROGRESS
    ∧ (create_ticket Category.ACCESS none none "Account blocked"
        "password reset needed please" 10).1.assignee =
        some "bob.wilson@company.com" := by
  decide

/-- C2 amended: the intake pipeline skips auto-resolution entirely — cache
and knowledge base included — for every ticket whose classified priority is
HIGH or CRITICAL: such a ticket is never auto-resolved, its status is
IN_PROGRESS and it is assigned by the Assignment Balancer, even when its
text matches a knowledge-base entry. (The cache and knowledge base are
consulted regardless of priority only inside `auto_resolve_ticket` itself,
which intake invokes only for LOW/MEDIUM tickets.) -/
theorem create_ticket_high_crit_assigned (ml_category : Category)
    (cache ai_content : Option String) (title description : String)
    (hour : Nat)
    (hp : determine_priority (title ++ " " ++ description) = Priority.HIGH ∨
          determine_priority (title ++ " " ++ description) = Priority.CRITICAL) :
    (create_ticket ml_category cache ai_content title description
        hour).1.resolution = none
    ∧ (create_ticket ml_category cache ai_content title description
        hour).1.status = Status.IN_PROGRESS
    ∧ (create_ticket ml_category cache ai_content title description
        hour).1.assignee = assign_ticket team_skills ml_category
    ∧ (create_ticket ml_category cache ai_content title description
        hour).1.auto_resolved = false := by
  rcases hp with hp | hp <;>
    simp [create_ticket, classify_ticket, intake_resolution, hp, is_truthy]

/-- C2 amended witness: "Account blocked password reset needed please" is
classified HIGH (keyword `blocked`), matches the knowledge base, and is
still routed to a handler. -/
theorem create_ticket_high_crit_assigned_witness :
    (create_ticket Category.ACCESS none none "Account blocked"
        "password reset needed please" 10).1.resolution = none
    ∧ (create_ticket Category.ACCESS none none "Account blocked"
        "password reset needed please" 10).1.status = Status.IN_PROGRESS
    ∧ (create_ticket Category.ACCESS none none "Account blocked"
        "password reset needed please" 10).1.assignee =
        assign_ticket team_skills Category.ACCESS
    ∧ (create_ticket Category.ACCESS none none "Account blocked"
        "password reset needed please" 10).1.auto_resolved = false :=
  create_ticket_high_crit_assigned Category.ACCESS none none "Account blocked"
    "password reset needed please" 10 (Or.inl (by decide))

/-- C3: for every ticket whose classified priority is HIGH or CRITICAL, the
AI resolution fallback `_generate_ai_resolution` is never invoked during
intake (the instrumentation bit of `create_ticket` stays false). -/
theorem ai_fallback_never_for_high_crit (ml_category : Category)
    (cache ai_content : Option String) (title description : String)
    (hour : Nat)
    (hp : determine_priority (title ++ " " ++ description) = Priority.HIGH ∨
          determine_priority (title ++ " " ++ description) = Priority.CRITICAL) :
    (create_ticket ml_category cache ai_content title description hour).2 =
      false := by
  rcases hp with hp | hp <;>
    simp [create_ticket, classify_ticket, intake_resolution, hp, is_truthy]

/-- C3 witness: a CRITICAL ticket (keyword `down`) with an AI completion
available still never invokes the AI fallback. -/
theorem ai_fallback_never_for_high_crit_witness :
    determine_priority ("Email server down" ++ " " ++
        "nobody can send mail since 9am") = Priority.CRITICAL
    ∧ (create_ticket Category.EMAIL none (some "Reboot the mail server")
        "Email server down" "nobody can send mail since 9am" 22).2 = false :=
  ⟨by decide,
    ai_fallback_never_for_high_crit Category.EMAIL none
      (some "Reboot the mail server") "Email server down"
      "nobody can send mail since 9am" 22 (Or.inr (by decide))⟩

/-- C4: every ticket leaves intake with status RESOLVED or IN_PROGRESS;
status is RESOLVED exactly when a resolution was produced and IN_PROGRESS
exactly when an assignee was set; at most one of resolution/assignee is set;
and `auto_resolved` implies a non-empty resolution text. -/
theorem create_ticket_disposition (ml_category : Category)
    (cache ai_content : Option String) (title description : String)
    (hour : Nat) :
    ((create_ticket ml_category cache ai_content title description
        hour).1.status = Status.RESOLVED
      ∨ (create_ticket ml_category cache ai_content title description
        hour).1.status = Status.IN_PROGRESS)
    ∧ ((create_ticket ml_category cache ai_content title description
        hour).1.status = Status.RESOLVED ↔
       (create_ticket ml_category cache ai_content title description
        hour).1.resolution ≠ none)
    ∧ ((create_ticket ml_category cache ai_content title description
        hour).1.status = Status.IN_PROGRESS ↔
       (create_ticket ml_category cache ai_content title description
        hour).1.assignee ≠ none)
    ∧ ((create_ticket ml_category cache ai_content title description
        hour).1.resolution = none
      ∨ (create_ticket ml_category cache ai_content title description
        hour).1.assignee = none)
    ∧ ((create_ticket ml_category cache ai_content title description
        hour).1.auto_resolved = true →
       ∃ s, (create_ticket ml_category cache ai_content title description
        hour).1.resolution = some s ∧ s ≠ "") := by
  by_cases hb : is_truthy (intake_resolution cache ai_content
      (determine_priority (title ++ " " ++ description)) title description).1 =
      true
  · obtain ⟨s, hs, hsne⟩ := (is_truthy_iff _).1 hb
    simp [create_ticket, classify_ticket, is_truthy, hb, hs, hsne]
  · rw [Bool.not_eq_true] at hb
    have ha : assign_ticket team_skills ml_category ≠ none := by
      rw [← Option.isSome_iff_ne_none]
      exact assign_team_skills_isSome ml_category
    simp [create_ticket, classify_ticket, hb, ha]

/-- C5 counterexample: with two candidates tied at workload fraction 5/10,
the balancer returns the one listed first in the roster (`zeta`), not the
one first in identifier ordering (`alpha`, lexicographically smaller,
stated on the character lists): a stable sort on the fraction keeps roster
order on ties, it does not fall back to the identifier. -/
theorem assign_ticket_tie_cex :
    suitable_assignees tie_roster Category.HARDWARE =
      [("zeta@company.com", mkRat 5 10), ("alpha@company.com", mkRat 5 10)]
    ∧ assign_ticket tie_roster Category.HARDWARE = some "zeta@company.com"
    ∧ "alpha@company.com".data < "zeta@company.com".data := by
  decide

/-- C5 amended: whenever some handler covers the category with load strictly
below its maximum, the balancer returns, among such candidates, the one with
the lowest `current_load / max_tickets` fraction, breaking fraction ties by
roster order (the earliest candidate), not by identifier ordering. -/
theorem assign_ticket_lowest_fraction (team : List Handler)
    (category : Category) (h : suitable_assignees team category ≠ []) :
    assign_ticket team category =
      first_lowest_frac (suitable_assignees team category) := by
  unfold assign_ticket first_lowest_frac
  rw [← argmin_eq_find_min Prod.snd (suitable_assignees team category)]
  cases harg : (suitable_assignees team category).argmin Prod.snd with
  | none => exact absurd (List.argmin_eq_none.1 harg) h
  | some p =>
      rcases p with ⟨e, r⟩
      rfl

/-- C5 amended witness: with handler A at load 5/10 and handler B at load
3/12 both skilled in the requested category, the balancer selects B (lower
fraction, 1/4 < 1/2). -/
theorem assign_ticket_lowest_fraction_witness :
    suitable_assignees example_roster Category.NETWORK ≠ []
    ∧ assign_ticket example_roster Category.NETWORK =
        first_lowest_frac (suitable_assignees example_roster Category.NETWORK)
    ∧ assign_ticket example_roster Category.NETWORK =
        some "handler.b@company.com" :=
  ⟨by decide,
    assign_ticket_lowest_fraction example_roster Category.NETWORK (by decide),
    by decide⟩

/-- C6: on a non-empty roster the balancer always returns some handler, and
when no handler both covers the category and is under capacity it falls back
to the globally least-loaded handler (earliest in roster order on load
ties), regardless of skill match — so an "no eligible handler" failure is
unreachable. -/
theorem assign_ticket_fallback_least_loaded (team : List Handler)
    (category : Category) (hne : team ≠ []) :
    (assign_ticket team category).isSome = true
    ∧ (suitable_assignees team category = [] →
        assign_ticket team category = first_least_loaded team) := by
  constructor
  · unfold assign_ticket
    cases harg : (suitable_assignees team category).argmin Prod.snd with
    | some p =>
        rcases p with ⟨e, r⟩
        rfl
    | none =>
        cases hteam : team.argmin Handler.current_load with
        | some h => rfl
        | none => exact absurd (List.argmin_eq_none.1 hteam) hne
  · intro hemp
    unfold assign_ticket first_least_loaded
    rw [← argmin_eq_find_min Handler.current_load team, hemp]
    rfl

/-- C6 witness: no handler in the source's roster covers OTHER, so the
balancer falls back to the least-loaded handler; the returned assignee is
`jane.smith` (load 3). -/
theorem assign_ticket_fallback_least_loaded_witness :
    ((assign_ticket team_skills Category.OTHER).isSome = true
      ∧ (suitable_assignees team_skills Category.OTHER = [] →
          assign_ticket team_skills Category.OTHER =
            first_least_loaded team_skills))
    ∧ suitable_assignees team_skills Category.OTHER = []
    ∧ assign_ticket team_skills Category.OTHER =
        some "jane.smith@company.com" :=
  ⟨assign_ticket_fallback_least_loaded team_skills Category.OTHER (by decide),
    by decide, by decide⟩
